import Mathlib

/-!
Verification of the secure-memory JNI shim (src/app/src/main/cpp/native-lib.cpp).

Modelling conventions:
* bytes and jchar values are `Nat`; the C cast `(unsigned char) c` of a 16-bit
  jchar keeps its low 8 bits, modelled as `% 256`;
* a Java char array is a `List Nat`; a nullable array handle is `Option (List Nat)`;
* `GetCharArrayElements` may hand the native code a copy of the array or a
  direct pointer (JNI leaves the choice to the VM); the boolean `isCopy`
  selects the mode, and `ReleaseCharArrayElements` with mode `JNI_ABORT`
  discards native writes exactly when a copy was handed out;
* `malloc`/`GetCharArrayElements` success or failure is an explicit boolean
  parameter of each modelled entry point;
* the operations record, for each buffer the call acquires, whether the buffer
  was acquired and whether it was zeroed before being released, so that the
  cleanup discipline of every path is visible in the result.
-/

namespace NativeLib

/-- Byte memory: address to byte value; address 0 plays the role of NULL. -/
def Mem : Type := Nat → Nat

/-- secure_memzero: zeroes len bytes starting at ptr; returns immediately when
ptr is NULL or len = 0, exactly as the guard in the source does. -/
def secure_memzero (mem : Mem) (ptr len : Nat) : Mem :=
  if ptr = 0 ∨ len = 0 then mem
  else fun a => if ptr ≤ a ∧ a < ptr + len then 0 else mem a

/-- Release mode of ReleaseCharArrayElements: mode 0 copies the native buffer
back into the Java array, JNI_ABORT discards native writes when the native
buffer was a copy. -/
inductive ReleaseMode where
  | commit : ReleaseMode
  | jniAbort : ReleaseMode
deriving DecidableEq

/-- Caller-visible Java array contents after ReleaseCharArrayElements:
with mode 0 the native contents are committed; with JNI_ABORT they are
discarded if the VM handed out a copy, but are already in place when the VM
handed out a direct pointer. -/
def releaseCharArrayElements (isCopy : Bool) (mode : ReleaseMode)
    (original native : List Nat) : List Nat :=
  match mode with
  | .commit => native
  | .jniAbort => if isCopy then original else native

/-- Error taxonomy of the spec (section 7). The source signals none of these:
its JNI entry points return without ever calling a Throw function. -/
inductive SecretError where
  | NotFoundError : SecretError
  | BufferTooSmallError : SecretError
  | AllocationError : SecretError
deriving DecidableEq

-- ========== CREDENTIAL STORAGE ==========

def XOR_KEY : Nat := 0x5A

def ENC_USER : List Nat := [0x3B, 0x3E, 0x37, 0x33, 0x34]

def ENC_PASS : List Nat := [0x3B, 0x3E, 0x37, 0x33, 0x34]

/-- decryptedUser[i] = ENC_USER[i] ^ XOR_KEY (the stack array of step 4). -/
def decryptedUser : List Nat := ENC_USER.map (fun b => b ^^^ XOR_KEY)

/-- decryptedPass[i] = ENC_PASS[i] ^ XOR_KEY (the stack array of step 4). -/
def decryptedPass : List Nat := ENC_PASS.map (fun b => b ^^^ XOR_KEY)

/-- Step 3 of checkCredentials: userBytes[i] = (unsigned char) userChars[i]
for i < userLen; the cast keeps the low byte of each 16-bit jchar. -/
def toBytes (chars : List Nat) (len : Nat) : List Nat :=
  (List.range len).map (fun i => chars.getD i 0 % 256)

/-- memcmp as an equality test on byte lists, instrumented with the number of
byte positions it visits: it stops at the first mismatching position. -/
def memcmpTrace : List Nat → List Nat → Bool × Nat
  | a :: as, b :: bs =>
      if a = b then ((memcmpTrace as bs).1, (memcmpTrace as bs).2 + 1)
      else (false, 1)
  | _, _ => (true, 0)

/-- Step 5 of checkCredentials on equal-length inputs:
match = (memcmp(userBytes, decryptedUser, userLen) == 0) &&
        (memcmp(passBytes, decryptedPass, passLen) == 0);
the C && skips the password memcmp when the user memcmp fails. The second
component counts the byte positions visited across both memcmp calls. -/
def compareStep (userBytes passBytes : List Nat) : Bool × Nat :=
  if (memcmpTrace userBytes decryptedUser).1 then
    ((memcmpTrace passBytes decryptedPass).1,
      (memcmpTrace userBytes decryptedUser).2 + (memcmpTrace passBytes decryptedPass).2)
  else (false, (memcmpTrace userBytes decryptedUser).2)

/-- Per-buffer bookkeeping of one checkCredentials call: which buffers the
call acquired and which it zeroed before releasing or freeing them. -/
structure CheckTrace where
  ret : Bool
  lockedAcquired : Bool
  lockedWiped : Bool
  userCharsAcquired : Bool
  userCharsWiped : Bool
  passCharsAcquired : Bool
  passCharsWiped : Bool
  userBytesAcquired : Bool
  userBytesWiped : Bool
  passBytesAcquired : Bool
  passBytesWiped : Bool
deriving DecidableEq

/-- Java_com_example_fuzzme_1v3_NativeBridge_checkCredentials, with the
success of each acquisition as an explicit parameter.
Path 1 (GetCharArrayElements failure): acquired char arrays are released with
JNI_ABORT and are not wiped; locked_mem is zeroed then freed.
Path 2 (malloc failure for userBytes/passBytes): the temp byte buffers are
freed unwiped, both char arrays are released unwiped, locked_mem is zeroed
then freed.
Success path: credentials are compared and every acquired buffer is zeroed
before free/release. -/
def checkCredentialsT (lockedOk userCharsOk passCharsOk userBytesOk passBytesOk : Bool)
    (juser jpass : List Nat) (userLen passLen : Nat) : CheckTrace :=
  if !userCharsOk || !passCharsOk then
    { ret := false
      lockedAcquired := lockedOk, lockedWiped := lockedOk
      userCharsAcquired := userCharsOk, userCharsWiped := false
      passCharsAcquired := passCharsOk, passCharsWiped := false
      userBytesAcquired := false, userBytesWiped := false
      passBytesAcquired := false, passBytesWiped := false }
  else if !userBytesOk || !passBytesOk then
    { ret := false
      lockedAcquired := lockedOk, lockedWiped := lockedOk
      userCharsAcquired := true, userCharsWiped := false
      passCharsAcquired := true, passCharsWiped := false
      userBytesAcquired := userBytesOk, userBytesWiped := false
      passBytesAcquired := passBytesOk, passBytesWiped := false }
  else
    { ret := if userLen = ENC_USER.length ∧ passLen = ENC_PASS.length then
        (compareStep (toBytes juser userLen) (toBytes jpass passLen)).1
      else false
      lockedAcquired := lockedOk, lockedWiped := lockedOk
      userCharsAcquired := true, userCharsWiped := true
      passCharsAcquired := true, passCharsWiped := true
      userBytesAcquired := true, userBytesWiped := true
      passBytesAcquired := true, passBytesWiped := true }

/-- checkCredentials result when every acquisition succeeds. -/
def checkCredentials (juser jpass : List Nat) (userLen passLen : Nat) : Bool :=
  (checkCredentialsT true true true true true juser jpass userLen passLen).ret

-- ========== FLAG METHODS ==========

def ENC_FLAG : List Nat :=
  [0x1C, 0x16, 0x1B, 0x1D, 0x21, 0x09, 0x09, 0x09, 0x2F, 0x2A, 0x3F, 0x28, 0x05,
   0x09, 0x3F, 0x39, 0x28, 0x3F, 0x2E, 0x05, 0x1C, 0x36, 0x3B, 0x3D, 0x27]

def FLAG_LEN : Nat := ENC_FLAG.length

def FLAG_KEY : Nat := 0x5A

/-- Contents of tempDecrypt after the decryption loop:
tempDecrypt[i] = ENC_FLAG[i] ^ FLAG_KEY (every value is below 0x80, so the
char-to-jchar widening in the copy loop is the identity on these values). -/
def flagPlaintext : List Nat := ENC_FLAG.map (fun b => b ^^^ FLAG_KEY)

/-- Java_com_example_fuzzme_1v3_NativeBridge_getFlagLength: returns FLAG_LEN
as a jint. -/
def getFlagLength : Int := (FLAG_LEN : Int)

/-- Result of one decryptFlagIntoBuffer call: the caller-visible array after
the call (none when the handle was null), the JNI exception state (the source
never throws), and the acquisition/wipe bookkeeping of the two heap buffers
the call may allocate. -/
structure DecryptResult where
  javaArr : Option (List Nat)
  thrown : Option SecretError
  lockedAcquired : Bool
  lockedWiped : Bool
  tempAcquired : Bool
  tempWiped : Bool
deriving DecidableEq

/-- Java_com_example_fuzzme_1v3_NativeBridge_decryptFlagIntoBuffer.
Null handle and GetCharArrayElements failure return at once. A destination
shorter than FLAG_LEN is released with JNI_ABORT, untouched. Otherwise
lockedMem (if malloc succeeds) is mlocked; on tempDecrypt malloc failure
lockedMem is munlocked and freed with no secure_memzero and the array is
released with JNI_ABORT. On success tempDecrypt holds the plaintext, the
first FLAG_LEN elements of the native buffer are overwritten with it, temp
and lockedMem are zeroed before free, and the array is released with mode 0
(copy back). -/
def decryptFlagIntoBuffer (isCopy getOk lockedOk tempOk : Bool)
    (jbuffer : Option (List Nat)) : DecryptResult :=
  match jbuffer with
  | none => ⟨none, none, false, false, false, false⟩
  | some arr =>
    if !getOk then ⟨some arr, none, false, false, false, false⟩
    else if arr.length < FLAG_LEN then
      ⟨some (releaseCharArrayElements isCopy .jniAbort arr arr), none,
        false, false, false, false⟩
    else if !tempOk then
      ⟨some (releaseCharArrayElements isCopy .jniAbort arr arr), none,
        lockedOk, false, false, false⟩
    else
      ⟨some (releaseCharArrayElements isCopy .commit arr
          (flagPlaintext ++ arr.drop FLAG_LEN)), none,
        lockedOk, lockedOk, true, true⟩

/-- Result of one wipeFlagBuffer call: the caller-visible array after the
call and the JNI exception state (the source never throws). -/
structure WipeResult where
  javaArr : Option (List Nat)
  thrown : Option SecretError
deriving DecidableEq

/-- Java_com_example_fuzzme_1v3_NativeBridge_wipeFlagBuffer: zeroes all
length * sizeof(jchar) bytes of the native buffer with secure_memzero, then
releases it with JNI_ABORT, so the zeros reach the Java array only when the
VM handed out a direct pointer. -/
def wipeFlagBuffer (isCopy getOk : Bool) (jbuffer : Option (List Nat)) : WipeResult :=
  match jbuffer with
  | none => ⟨none, none⟩
  | some arr =>
    if !getOk then ⟨some arr, none⟩
    else ⟨some (releaseCharArrayElements isCopy .jniAbort arr
        (arr.map (fun _ => 0))), none⟩

/-- Modelled from the spec: the source exposes no secretId parameter (its
native interface serves a single hard-coded secret), so the named-secret
table of spec sections 4.3 and 6 is missing from src; it is modelled as a
table holding the one ciphertext of the source under the id "flag". -/
def secretTable (id : String) : Option (List Nat) :=
  if id = "flag" then some ENC_FLAG else none

/-- Modelled from the spec: get_secret_length(secretId) returns the plaintext
length of the named secret without decrypting it (the XOR cipher preserves
length, so the stored ciphertext length is the plaintext length); an unknown
secretId fails with NotFoundError. -/
def get_secret_length (id : String) : Except SecretError Int :=
  match secretTable id with
  | some ct => .ok (ct.length : Int)
  | none => .error .NotFoundError

-- ========== HELPER LEMMAS ==========

theorem toBytes_length (chars : List Nat) (len : Nat) :
    (toBytes chars len).length = len := by
  simp [toBytes]

theorem memcmpTrace_eq_iff (as bs : List Nat) (h : as.length = bs.length) :
    ((memcmpTrace as bs).1 = true ↔ as = bs) := by
  induction as generalizing bs with
  | nil =>
    cases bs with
    | nil => simp [memcmpTrace]
    | cons b bs => simp at h
  | cons a as ih =>
    cases bs with
    | nil => simp at h
    | cons b bs =>
      simp only [List.length_cons, Nat.add_right_cancel_iff] at h
      by_cases hab : a = b
      · subst hab
        simp [memcmpTrace, ih bs h]
      · simp [memcmpTrace, hab]

theorem memcmpTrace_mismatch (k : Nat) (as bs : List Nat)
    (hpre : as.take k = bs.take k) (hne : as.getD k 0 ≠ bs.getD k 0)
    (ha : k < as.length) (hb : k < bs.length) :
    memcmpTrace as bs = (false, k + 1) := by
  induction k generalizing as bs with
  | zero =>
    cases as with
    | nil => simp at ha
    | cons a as =>
      cases bs with
      | nil => simp at hb
      | cons b bs =>
        simp only [List.getD_cons_zero] at hne
        simp [memcmpTrace, hne]
  | succ k ih =>
    cases as with
    | nil => simp at ha
    | cons a as =>
      cases bs with
      | nil => simp at hb
      | cons b bs =>
        rw [List.take_succ_cons, List.take_succ_cons] at hpre
        injection hpre with hab hpre
        subst hab
        have hrec := ih as bs hpre (by simpa using hne)
          (by simpa using ha) (by simpa using hb)
        simp [memcmpTrace, hrec]

theorem compareStep_true_iff (u p : List Nat) (hu : u.length = 5) (hp : p.length = 5) :
    ((compareStep u p).1 = true ↔ (u = decryptedUser ∧ p = decryptedPass)) := by
  have hdu : decryptedUser.length = 5 := by decide
  have hdp : decryptedPass.length = 5 := by decide
  have h1 := memcmpTrace_eq_iff u decryptedUser (hu.trans hdu.symm)
  have h2 := memcmpTrace_eq_iff p decryptedPass (hp.trans hdp.symm)
  cases hc : (memcmpTrace u decryptedUser).1 with
  | false =>
    rw [hc] at h1
    simp only [Bool.false_eq_true, false_iff] at h1
    simp [compareStep, hc, h1]
  | true =>
    rw [hc] at h1
    simp only [true_iff] at h1
    subst h1
    simp [compareStep, hc, h2]

-- ========== C1 ==========

/-- C1 counterexample: the jchar 0x161 is not the character of the decrypted
username byte 0x61, yet checkCredentials accepts it, because the conversion
loop keeps only the low byte of each jchar; so the claim that every input
other than the decrypted credentials is rejected is false. -/
theorem checkCredentials_highbyte_cex :
    checkCredentials [0x161, 0x64, 0x6D, 0x69, 0x6E] [0x61, 0x64, 0x6D, 0x69, 0x6E] 5 5 = true ∧
    ([0x161, 0x64, 0x6D, 0x69, 0x6E] : List Nat) ≠ decryptedUser := by
  decide

/-- C1 (amended): checkCredentials returns JNI_TRUE exactly when userLen and
passLen are both 5 and the low bytes of the first userLen user chars and the
first passLen password chars spell the decrypted stored credentials
(each ENC byte XOR 0x5A); every other input yields JNI_FALSE. -/
theorem checkCredentials_iff (juser jpass : List Nat) (userLen passLen : Nat) :
    (checkCredentials juser jpass userLen passLen = true ↔
      (userLen = 5 ∧ passLen = 5 ∧
        toBytes juser userLen = decryptedUser ∧ toBytes jpass passLen = decryptedPass)) := by
  have hred : checkCredentials juser jpass userLen passLen =
      (if userLen = ENC_USER.length ∧ passLen = ENC_PASS.length then
        (compareStep (toBytes juser userLen) (toBytes jpass passLen)).1
      else false) := rfl
  have e1 : ENC_USER.length = 5 := rfl
  have e2 : ENC_PASS.length = 5 := rfl
  rw [hred]
  by_cases h5 : userLen = ENC_USER.length ∧ passLen = ENC_PASS.length
  · rw [if_pos h5]
    obtain ⟨h1, h2⟩ := h5
    rw [compareStep_true_iff _ _ (by rw [toBytes_length, h1, e1])
      (by rw [toBytes_length, h2, e2])]
    constructor
    · rintro ⟨hu, hp⟩
      exact ⟨h1.trans e1, h2.trans e2, hu, hp⟩
    · rintro ⟨_, _, hu, hp⟩
      exact ⟨hu, hp⟩
  · rw [if_neg h5]
    simp only [Bool.false_eq_true, false_iff]
    rintro ⟨h1, h2, -, -⟩
    exact h5 ⟨h1.trans e1.symm, h2.trans e2.symm⟩

-- ========== C8 ==========

/-- C8 counterexample: with a first-byte username mismatch the comparison
visits a single byte position, not all 10 of the two 5-byte inputs, so the
claim that every byte of both inputs is visited regardless of mismatch
position is false. -/
theorem compareStep_visits_cex :
    (compareStep [0x00, 0x64, 0x6D, 0x69, 0x6E] [0x61, 0x64, 0x6D, 0x69, 0x6E]).2 = 1 ∧
    (1 : Nat) ≠ 5 + 5 := by
  decide

/-- C8 (amended): the comparison is not constant-time: when the candidate
username first differs from the decrypted username at position k, exactly
k + 1 byte positions are visited — the user memcmp stops at the first
mismatch and the password memcmp is skipped entirely — while a full match of
both credentials visits all 10 positions; so the visit count depends on the
byte values and the mismatch position, not only on the lengths. -/
theorem compareStep_mismatch_position (k : Nat) (u p : List Nat)
    (hu : u.length = 5) (hk : k < 5)
    (hpre : u.take k = decryptedUser.take k)
    (hne : u.getD k 0 ≠ decryptedUser.getD k 0) :
    (compareStep u p).2 = k + 1 ∧
    (compareStep decryptedUser decryptedPass).2 = 5 + 5 := by
  have hdu : decryptedUser.length = 5 := by decide
  have hmt := memcmpTrace_mismatch k u decryptedUser hpre hne
    (by omega) (by omega)
  constructor
  · simp [compareStep, hmt]
  · decide

/-- C8 witness: a username candidate differing at position 0 makes the
comparison visit exactly one byte position. -/
theorem compareStep_mismatch_position_w :
    (compareStep [0, 0, 0, 0, 0] []).2 = 0 + 1 ∧
    (compareStep decryptedUser decryptedPass).2 = 5 + 5 :=
  compareStep_mismatch_position 0 [0, 0, 0, 0, 0] [] (by decide) (by decide)
    (by decide) (by decide)

-- ========== C9 ==========

/-- C9: the result of checkCredentials depends only on the low 8 bits of each
input character: two input pairs with the same lengths whose chars agree in
their low byte at every position below the stated lengths produce the same
boolean. -/
theorem checkCredentials_low_byte (ju1 jp1 ju2 jp2 : List Nat) (uL pL : Nat)
    (hu : ∀ i, i < uL → ju1.getD i 0 % 256 = ju2.getD i 0 % 256)
    (hp : ∀ i, i < pL → jp1.getD i 0 % 256 = jp2.getD i 0 % 256) :
    checkCredentials ju1 jp1 uL pL = checkCredentials ju2 jp2 uL pL := by
  have h1 : toBytes ju1 uL = toBytes ju2 uL := by
    unfold toBytes
    refine List.map_congr_left ?_
    intro i hi
    exact hu i (List.mem_range.mp hi)
  have h2 : toBytes jp1 pL = toBytes jp2 pL := by
    unfold toBytes
    refine List.map_congr_left ?_
    intro i hi
    exact hp i (List.mem_range.mp hi)
  have hred : ∀ ju jp : List Nat, checkCredentials ju jp uL pL =
      (if uL = ENC_USER.length ∧ pL = ENC_PASS.length then
        (compareStep (toBytes ju uL) (toBytes jp pL)).1
      else false) := fun _ _ => rfl
  rw [hred, hred, h1, h2]

/-- C9 witness: chars 0x161 and 0x61 share their low byte, so swapping them
leaves the result unchanged. -/
theorem checkCredentials_low_byte_w :
    checkCredentials [0x161] [] 1 0 = checkCredentials [0x61] [] 1 0 :=
  checkCredentials_low_byte [0x161] [] [0x61] [] 1 0 (by decide) (by decide)

-- ========== C2 ==========

/-- C2: evaluation at the failing input: when the VM hands the native code a
copy of the array (a choice JNI leaves to the VM), wipeFlagBuffer zeroes only
that copy and releases it with JNI_ABORT, so the caller's array [1] still
reads [1] after the call, while the direct-pointer mode would have left [0];
the claim that every element of the caller's array reads zero after the call
fails under copy semantics. -/
theorem wipeFlagBuffer_copy_cex :
    (wipeFlagBuffer true true (some [1])).javaArr = some [1] ∧
    (wipeFlagBuffer false true (some [1])).javaArr = some [0] ∧
    (some [1] : Option (List Nat)) ≠ some [0] := by
  decide

-- ========== C3 ==========

/-- C3 counterexample: with a destination of length 1 < 25,
decryptFlagIntoBuffer returns with no error signalled (the JNI exception
state stays empty; the source never calls a Throw function, its comment even
says "In production, throw exception"), so the claim that
BufferTooSmallError is signalled is false. -/
theorem decryptFlag_tooSmall_cex :
    (decryptFlagIntoBuffer true true true true (some [7])).thrown = none ∧
    (decryptFlagIntoBuffer true true true true (some [7])).thrown ≠
      some SecretError.BufferTooSmallError := by
  decide

/-- C3 (amended): for every destination of length L < 25,
decryptFlagIntoBuffer returns silently — no error is signalled — and leaves
every element of the destination bit-for-bit unchanged (no partial writes on
failure), in both JNI copy modes and for every allocation outcome. -/
theorem decryptFlag_tooSmall (isCopy getOk lockedOk tempOk : Bool) (arr : List Nat)
    (h : arr.length < 25) :
    (decryptFlagIntoBuffer isCopy getOk lockedOk tempOk (some arr)).javaArr = some arr ∧
    (decryptFlagIntoBuffer isCopy getOk lockedOk tempOk (some arr)).thrown = none := by
  have hf : FLAG_LEN = 25 := rfl
  cases getOk with
  | false => simp [decryptFlagIntoBuffer]
  | true => simp [decryptFlagIntoBuffer, hf, h, releaseCharArrayElements]

/-- C3 witness: a length-1 destination is returned unchanged. -/
theorem decryptFlag_tooSmall_w :
    (decryptFlagIntoBuffer true true true true (some [7])).javaArr = some [7] :=
  (decryptFlag_tooSmall true true true true [7] (by decide)).1

-- ========== C4 ==========

/-- C4: on a successful call with a destination of length L ≥ 25,
decryptFlagIntoBuffer fills exactly the first 25 elements of the destination
with the decrypted plaintext ENC_FLAG[i] XOR 0x5A and leaves every element at
index ≥ 25 unchanged (release mode 0 commits the native buffer, in which
only the first 25 elements were overwritten). -/
theorem decryptFlag_success (isCopy lockedOk : Bool) (arr : List Nat)
    (h : 25 ≤ arr.length) :
    (decryptFlagIntoBuffer isCopy true lockedOk true (some arr)).javaArr =
      some (flagPlaintext ++ arr.drop 25) ∧
    (∀ i, i < 25 → (flagPlaintext ++ arr.drop 25).getD i 0 = ENC_FLAG.getD i 0 ^^^ 0x5A) ∧
    (∀ i, 25 ≤ i → (flagPlaintext ++ arr.drop 25).getD i 0 = arr.getD i 0) := by
  have hf : FLAG_LEN = 25 := rfl
  have hlen : flagPlaintext.length = 25 := by decide
  have hnl : ¬ arr.length < 25 := by omega
  refine ⟨?_, ?_, ?_⟩
  · simp [decryptFlagIntoBuffer, hnl, releaseCharArrayElements, hf]
  · intro i hi
    rw [List.getD_append _ _ _ _ (by omega)]
    revert hi
    revert i
    decide
  · intro i hi
    rw [List.getD_append_right _ _ _ _ (by omega)]
    rw [hlen, List.getD_eq_getD_get?, List.getD_eq_getD_get?,
      List.get?_eq_getElem?, List.get?_eq_getElem?, List.getElem?_drop]
    have : 25 + (i - 25) = i := by omega
    rw [this]

/-- C4 witness: a destination of 26 sevens receives the 25 plaintext bytes
followed by its untouched last element. -/
theorem decryptFlag_success_w :
    (decryptFlagIntoBuffer true true true true (some (List.replicate 26 7))).javaArr =
      some (flagPlaintext ++ (List.replicate 26 7).drop 25) :=
  (decryptFlag_success true true (List.replicate 26 7) (by decide)).1

-- ========== C5 ==========

/-- C5 counterexample: on the temporary-allocation-failure path of
decryptFlagIntoBuffer, the locked memory was acquired but is munlocked and
freed with no secure_memzero, so an error path does release a buffer without
wiping it, contrary to the claim. -/
theorem cleanup_error_path_cex :
    (decryptFlagIntoBuffer true true true false (some (List.replicate 25 0))).lockedAcquired
      = true ∧
    (decryptFlagIntoBuffer true true true false (some (List.replicate 25 0))).lockedWiped
      = false := by
  decide

/-- C5 (amended): checkCredentials zeroes the locked memory before freeing it
on every path, and both operations zero every acquired buffer on their
success paths; but the failure paths fall short of the claim:
checkCredentials releases the acquired char arrays without wiping them on its
allocation-failure path, and decryptFlagIntoBuffer frees the acquired locked
memory without zeroing it on its temporary-allocation-failure path. -/
theorem cleanup_paths (isCopy lockedOk userCharsOk passCharsOk userBytesOk passBytesOk : Bool)
    (juser jpass : List Nat) (uL pL : Nat) (arr : List Nat) (h : 25 ≤ arr.length) :
    (checkCredentialsT lockedOk userCharsOk passCharsOk userBytesOk passBytesOk
      juser jpass uL pL).lockedWiped = lockedOk ∧
    (checkCredentialsT lockedOk true true false passBytesOk
      juser jpass uL pL).userCharsAcquired = true ∧
    (checkCredentialsT lockedOk true true false passBytesOk
      juser jpass uL pL).userCharsWiped = false ∧
    (checkCredentialsT lockedOk true true true true juser jpass uL pL).userCharsWiped = true ∧
    (checkCredentialsT lockedOk true true true true juser jpass uL pL).userBytesWiped = true ∧
    (checkCredentialsT lockedOk true true true true juser jpass uL pL).passBytesWiped = true ∧
    (decryptFlagIntoBuffer isCopy true lockedOk true (some arr)).lockedWiped = lockedOk ∧
    (decryptFlagIntoBuffer isCopy true lockedOk true (some arr)).tempWiped = true ∧
    (decryptFlagIntoBuffer isCopy true lockedOk false (some arr)).lockedAcquired = lockedOk ∧
    (decryptFlagIntoBuffer isCopy true lockedOk false (some arr)).lockedWiped = false := by
  have hf : FLAG_LEN = 25 := rfl
  have hnl : ¬ arr.length < 25 := by omega
  refine ⟨?_, ?_, ?_, ?_, ?_, ?_, ?_, ?_, ?_, ?_⟩
  · cases userCharsOk <;> cases passCharsOk <;> cases userBytesOk <;> cases passBytesOk <;>
      simp [checkCredentialsT]
  · simp [checkCredentialsT]
  · simp [checkCredentialsT]
  · simp [checkCredentialsT]
  · simp [checkCredentialsT]
  · simp [checkCredentialsT]
  · simp [decryptFlagIntoBuffer, hf, hnl]
  · simp [decryptFlagIntoBuffer, hf, hnl]
  · simp [decryptFlagIntoBuffer, hf, hnl]
  · simp [decryptFlagIntoBuffer, hf, hnl]

/-- C5 witness: a concrete run of the failing path: the locked memory was
acquired and released unwiped. -/
theorem cleanup_paths_w :
    (decryptFlagIntoBuffer true true true false (some (List.replicate 25 (0 : Nat)))).lockedWiped
      = false :=
  (cleanup_paths true true true true true true [] [] 0 0 (List.replicate 25 0)
    (by decide)).2.2.2.2.2.2.2.2.2

-- ========== C6 ==========

/-- C6: secure_memzero with a non-null pointer zeroes every one of the len
bytes of the region: each address ptr + i with i < len reads zero
immediately afterwards. -/
theorem secure_memzero_zeroes (mem : Mem) (ptr len i : Nat)
    (hp : ptr ≠ 0) (hi : i < len) :
    secure_memzero mem ptr len (ptr + i) = 0 := by
  unfold secure_memzero
  rw [if_neg (by push_neg; exact ⟨hp, by omega⟩)]
  exact if_pos ⟨Nat.le_add_right _ _, by omega⟩

/-- C6 witness: zeroing 3 bytes at address 1 of an all-7 memory makes the
byte at address 1 read zero. -/
theorem secure_memzero_zeroes_w :
    secure_memzero (fun _ => 7) 1 3 (1 + 0) = 0 :=
  secure_memzero_zeroes (fun _ => 7) 1 3 0 (by decide) (by decide)

-- ========== C7 ==========

/-- C7: getFlagLength returns the non-negative integer 25, which is the
plaintext length of the stored flag whatever the key (a length-preserving
XOR needs no decryption to report it), and in the spec's named-secret table
the known id yields exactly this length while an unknown secretId fails with
NotFoundError. -/
theorem getFlagLength_spec :
    getFlagLength = 25 ∧ 0 ≤ getFlagLength ∧
    (∀ key : Nat, ((ENC_FLAG.map (fun b => b ^^^ key)).length : Int) = getFlagLength) ∧
    get_secret_length "flag" = .ok getFlagLength ∧
    (∀ id : String, secretTable id = none →
      get_secret_length id = .error SecretError.NotFoundError) := by
  refine ⟨rfl, by decide, ?_, rfl, ?_⟩
  · intro key
    simp [getFlagLength, FLAG_LEN]
  · intro id hid
    unfold get_secret_length
    rw [hid]

/-- C7 witness: the id "user" is not in the table and fails with
NotFoundError. -/
theorem getFlagLength_spec_w :
    get_secret_length "user" = .error SecretError.NotFoundError :=
  getFlagLength_spec.2.2.2.2 "user" (by decide)

-- ========== C10 ==========

/-- C10: a null buffer handle, or a failed GetCharArrayElements, makes
decryptFlagIntoBuffer and wipeFlagBuffer return at once: no buffer is
acquired or written, no error is signalled, and the caller-visible array is
unchanged. -/
theorem null_or_failure_noop (isCopy getOk lockedOk tempOk : Bool) (arr : List Nat) :
    decryptFlagIntoBuffer isCopy getOk lockedOk tempOk none =
      ⟨none, none, false, false, false, false⟩ ∧
    decryptFlagIntoBuffer isCopy false lockedOk tempOk (some arr) =
      ⟨some arr, none, false, false, false, false⟩ ∧
    wipeFlagBuffer isCopy getOk none = ⟨none, none⟩ ∧
    wipeFlagBuffer isCopy false (some arr) = ⟨some arr, none⟩ := by
  refine ⟨rfl, ?_, rfl, ?_⟩
  · simp [decryptFlagIntoBuffer]
  · simp [wipeFlagBuffer]

end NativeLib
